import Mathlib

/-!
# Verification of the network-triage diagnostic pipeline

Shallow embedding of the decision logic of the `dubhacks25` network-triage
repository: the tool-output parsers (`run_traceroute`, `check_arp_table`,
`NetworkTools.ping_test`), the health classifier
(`NetworkMonitor.analyze_metrics`), the rule-based root-cause diagnoser
(`WorkingDiagnosticAgent.analyze_with_rules`, from
`agents/diagnostic_agent_working.py`) and the fallback health scorer
(`WorkingDiagnosticAgent._fallback_health_score`).

Python numbers are modelled as `ℚ`; a Python value that may be `None` is
`Option ℚ`.  A dictionary field that may be missing altogether *and* may hold
`None` is `Option (Option ℚ)` (`none` = key absent, `some none` = key present
holding `None`).  Python `TypeError`s raised by comparing or adding `None`
are modelled with `Except PyErr`.  Rational arithmetic is done through
`qAdd` / `qDivNat` (proved equal to `+` and `/ n` below) so that closed
evaluations reduce inside the kernel.
-/

namespace NetTriage

deriving instance DecidableEq for Except

/-- The only Python exception the embedded code can raise at the modelled
call sites: a `TypeError` from using `None` as a number (`sum` over a list
containing `None`, or an unguarded `None > n` comparison). -/
inductive PyErr where
  | typeError
deriving DecidableEq, Repr

/-- Kernel-computable addition on `ℚ` (the built-in `Rat.add` does not reduce
definitionally); shown equal to `+` in `qAdd_eq`. -/
def qAdd (a b : ℚ) : ℚ := mkRat (a.num * b.den + b.num * a.den) (a.den * b.den)

/-- Kernel-computable division of a rational by a natural number; shown equal
to `/ n` in `qDivNat_eq`. -/
def qDivNat (a : ℚ) (n : ℕ) : ℚ := mkRat a.num (a.den * n)

/-- Python truthiness of a numeric value: `None` and `0` are falsy. -/
def pyTruthyNum (v : Option ℚ) : Bool :=
  match v with
  | none => false
  | some q => decide (q ≠ 0)

/-- Python truthiness of an optional string: `None` and `""` are falsy. -/
def pyTruthyStr (v : Option String) : Bool :=
  match v with
  | none => false
  | some s => decide (s ≠ "")

/-- Two-level `metrics.get('k', {}).get('field', default)` access: `none`
means the sub-dict or the key is absent (so the default applies), `some none`
means the key is present and holds `None`. -/
def pyGet (field : Option (Option ℚ)) (dflt : Option ℚ) : Option ℚ :=
  field.getD dflt

/-- Python `sum(xs)` over a Python list whose elements are numbers or `None`:
raises `TypeError` at the first `None`, otherwise adds left to right
starting from `0`, exactly like Python's `sum`. -/
def pySum (l : List (Option ℚ)) : Except PyErr ℚ :=
  l.foldlM (fun acc x =>
    match x with
    | none => Except.error PyErr.typeError
    | some q => pure (qAdd acc q)) 0

/-- An unguarded Python comparison `v > threshold`: raises `TypeError` when
`v` is `None`. -/
def pyGtNum (v : Option ℚ) (threshold : ℚ) : Except PyErr Bool :=
  match v with
  | none => Except.error PyErr.typeError
  | some q => pure (decide (threshold < q))

/-- Stand-in for Python's `str(float)`: exact (`"80.0"`) for integral values,
`num/den` notation otherwise.  Deterministic; no claim depends on the exact
text of a formatted number, only on its determinism. -/
def pyStrNum (q : ℚ) : String :=
  if q.den = 1 then toString q.num ++ ".0"
  else toString q.num ++ "/" ++ toString q.den

/-- Python's `str` of a value that may be `None` (`str(None) = "None"`). -/
def pyStrOptNum (v : Option ℚ) : String :=
  match v with
  | none => "None"
  | some q => pyStrNum q

/-- Python's `str` of an optional string (`str(None) = "None"`). -/
def pyStrOptStr (v : Option String) : String :=
  match v with
  | none => "None"
  | some s => s

/-- Round a rational to the nearest integer (stand-in for Python's `round`
and `:.0f` formatting; ties go up rather than to even, which no claim
exercises). -/
def roundInt (q : ℚ) : ℤ :=
  Int.fdiv (2 * q.num + q.den) (2 * q.den)

/-- Stand-in for Python's `f"{x:.0f}"`. -/
def fmtF0 (q : ℚ) : String := toString (roundInt q)

/-- Stand-in for Python's `f"{x:.1f}"`. -/
def fmtF1 (q : ℚ) : String :=
  let n : ℤ := Int.fdiv (2 * (q.num * 10) + q.den) (2 * q.den)
  let m : ℕ := n.natAbs
  (if n < 0 then "-" else "") ++ toString (m / 10) ++ "." ++ toString (m % 10)

/-- Python's `round(x, 2)` on a rational (ties resolved upward; no claim
depends on tie behaviour). -/
def pyRound2 (q : ℚ) : ℚ :=
  mkRat (Int.fdiv (2 * (q.num * 100) + q.den) (2 * q.den)) 100

/-! ## Health Classifier (`NetworkMonitor.analyze_metrics`, `agents/monitor_agent.py`)

A `Snapshot` is the `metrics` dictionary built by `collect_metrics`: the five
sub-records produced by the monitoring tools (`gateway` is never read by
`analyze_metrics` and is omitted).  Field typing follows what the producing
tools can emit: `ping_test` emits `latency_ms` as a number or `None` and
`packet_loss` as a number, or an error record without either key. -/

/-- Model of `metrics['ping']` as produced by `monitor_agent.ping_test`. -/
structure PingSnapshot where
  success : Bool
  latency_ms : Option ℚ
  packet_loss : Option ℚ
  host : String
deriving DecidableEq, Repr

/-- Model of `metrics['dns']` as produced by `monitor_agent.dns_lookup`. -/
structure DnsSnapshot where
  success : Bool
deriving DecidableEq, Repr

/-- Model of `metrics['signal']` as produced by `monitor_agent.check_wifi_signal`. -/
structure SignalSnapshot where
  success : Bool
  signal_dbm : Option ℚ
  quality : Option String
deriving DecidableEq, Repr

/-- Model of `metrics['interface']` as produced by `monitor_agent.check_interface_status`. -/
structure InterfaceSnapshot where
  up : Bool
deriving DecidableEq, Repr

/-- The metrics snapshot handed to `analyze_metrics`. -/
structure Snapshot where
  ping : PingSnapshot
  dns : DnsSnapshot
  signal : SignalSnapshot
  interface : InterfaceSnapshot
deriving DecidableEq, Repr

/-- An element of the `issues` list (`details` sub-record elided: it is the
raw metrics record and is never read by later stages). -/
structure Issue where
  type : String
  severity : String
  message : String
deriving DecidableEq, Repr

/-- An element of the `warnings` list. -/
structure Warning where
  type : String
  severity : String
  message : String
  value : ℚ
deriving DecidableEq, Repr

/-- The analysis record returned by `analyze_metrics`. -/
structure Analysis where
  timestamp : String
  status : String
  issues : List Issue
  warnings : List Warning
  metrics : Snapshot
deriving DecidableEq, Repr

namespace NetworkMonitor

/-- The `self.thresholds` dictionary of `NetworkMonitor.__init__`. -/
def max_latency_ms : ℚ := 200

/-- Packet-loss threshold from `self.thresholds`. -/
def max_packet_loss : ℚ := 20

/-- Signal threshold from `self.thresholds`. -/
def min_signal_dbm : ℚ := -80

/-- Lines 323–385 of `monitor_agent.py`: the issue/warning collection of
`analyze_metrics`, in source order (ping, DNS, signal, interface). -/
def collectIssuesWarnings (iface : String) (metrics : Snapshot) :
    List Issue × List Warning :=
  -- Check ping
  let ping := metrics.ping
  let (issues, warnings) :=
    if ¬ ping.success then
      ([Issue.mk "connectivity" "critical" "Cannot reach external hosts - ping failed"],
       ([] : List Warning))
    else
      let latency := ping.latency_ms
      let packet_loss := (ping.packet_loss).getD 0
      let w₁ :=
        match latency with
        | some q =>
          if q ≠ 0 ∧ max_latency_ms < q then
            [Warning.mk "latency" "warning"
              ("High latency: " ++ pyStrNum q ++ "ms (threshold: 200ms)") q]
          else []
        | none => []
      let w₂ :=
        if max_packet_loss < packet_loss then
          [Warning.mk "packet_loss" "warning"
            ("High packet loss: " ++ pyStrNum packet_loss ++ "%") packet_loss]
        else []
      ([], w₁ ++ w₂)
  -- Check DNS
  let issues :=
    if ¬ metrics.dns.success then
      issues ++ [Issue.mk "dns" "critical" "DNS resolution failed"]
    else issues
  -- Check signal
  let warnings :=
    if metrics.signal.success then
      match metrics.signal.signal_dbm with
      | some q =>
        if q ≠ 0 ∧ q < min_signal_dbm then
          warnings ++ [Warning.mk "signal" "warning"
            ("Weak WiFi signal: " ++ pyStrNum q ++ "dBm (" ++
              pyStrOptStr metrics.signal.quality ++ ")") q]
        else warnings
      | none => warnings
    else warnings
  -- Check interface
  let issues :=
    if ¬ metrics.interface.up then
      issues ++ [Issue.mk "interface" "critical"
        ("Network interface " ++ iface ++ " is down")]
    else issues
  (issues, warnings)

/-- Lines 387–393 of `monitor_agent.py`: status derivation from the issue
and warning lists (Python list truthiness = non-emptiness). -/
def healthStatus (issues : List Issue) (warnings : List Warning) : String :=
  if ¬ issues.isEmpty then "unhealthy"
  else if ¬ warnings.isEmpty then "degraded"
  else "healthy"

/-- Embedding of `NetworkMonitor.analyze_metrics` (`agents/monitor_agent.py`, lines
313–401).  `now` is the `datetime.now().isoformat()` reading; `iface` is
`self.interface`. -/
def analyze_metrics (now iface : String) (metrics : Snapshot) : Analysis :=
  let (issues, warnings) := collectIssuesWarnings iface metrics
  { timestamp := now
    status := healthStatus issues warnings
    issues := issues
    warnings := warnings
    metrics := metrics }

end NetworkMonitor

/-! ## Root-Cause Diagnoser (`WorkingDiagnosticAgent.analyze_with_rules`,
`agents/diagnostic_agent_working.py`, lines 157–317)

The alert's `metrics` sub-dicts are accessed only through two-level `.get`
chains with defaults, so each is flattened to one `Option (Option ℚ)` field.
The `ToolResultSet` keys other than `ping_multiple` and `wifi_scan`
(`traceroute`, `dns_check`, `arp_table`) are never read by
`analyze_with_rules`; they are carried opaquely into `diagnostic_data`.
The optional CrewAI scoring step (lines 307–315) runs only when an LLM was
configured (`enable_ai_scoring`); the embedding models the deterministic
rule pipeline with scoring disabled. -/

/-- One element of `results['ping_multiple']['results']`, as produced by
`ping_multiple_targets`: `target` is always set; `latency_ms` may be absent
(error entry), `None` (no average RTT) or a number. -/
structure PingEntry where
  target : String
  success : Bool
  latency_ms : Option (Option ℚ)
deriving DecidableEq, Repr

/-- Model of `results['ping_multiple']`. -/
structure PingMultipleResult where
  success : Bool
  results : List PingEntry
deriving DecidableEq, Repr

/-- Model of `results['wifi_scan']` (only `success` and `networks_found` are read). -/
structure WifiScanResult where
  success : Bool
  networks_found : Option ℕ
deriving DecidableEq, Repr

/-- The `results` dictionary built by `diagnose` (`ToolResultSet`): a key is
`none` when absent.  Unread keys are summarised by `other`, which the rules
copy verbatim into `diagnostic_data`. -/
structure ToolResultSet where
  ping_multiple : Option PingMultipleResult
  wifi_scan : Option WifiScanResult
  other : List (String × String)
deriving DecidableEq, Repr

/-- The alert's `metrics` dict: each field is the two-level
`metrics.get(k, {}).get(f, …)` source, flattened (see `pyGet`). -/
structure AlertMetrics where
  ping_latency_ms : Option (Option ℚ)
  signal_dbm : Option (Option ℚ)
  dns_latency_ms : Option (Option ℚ)
deriving DecidableEq, Repr

/-- The alert passed from the monitor (`alert['status']` is accessed
directly, hence mandatory). -/
structure Alert where
  status : String
  metrics : AlertMetrics
deriving DecidableEq, Repr

/-- The diagnosis dictionary built by `analyze_with_rules`. -/
structure Diagnosis where
  timestamp : String
  alert_status : String
  primary_issue : Option String
  root_cause : Option String
  confidence : String
  evidence : List String
  recommendations : List String
  diagnostic_data : ToolResultSet
deriving DecidableEq, Repr

/-- The `Diagnosis` record with the `timestamp` field removed, for stating that the
diagnoser is deterministic up to its clock reading. -/
structure DiagnosisData where
  alert_status : String
  primary_issue : Option String
  root_cause : Option String
  confidence : String
  evidence : List String
  recommendations : List String
  diagnostic_data : ToolResultSet
deriving DecidableEq, Repr

/-- Forget the `timestamp` field of a diagnosis. -/
def Diagnosis.stripTs (d : Diagnosis) : DiagnosisData :=
  { alert_status := d.alert_status
    primary_issue := d.primary_issue
    root_cause := d.root_cause
    confidence := d.confidence
    evidence := d.evidence
    recommendations := d.recommendations
    diagnostic_data := d.diagnostic_data }

/-- Python's substring test `sub in s` on character lists. -/
def containsSub (sub : List Char) : List Char → Bool
  | [] => sub.isEmpty
  | c :: rest => sub.isPrefixOf (c :: rest) || containsSub sub rest

/-- Python's `s.lower()` (kernel-computable, unlike `String.toLower`). -/
def lowerChars (l : List Char) : List Char := l.map Char.toLower

namespace WorkingDiagnosticAgent

/-- Line 189 / 286 / 344 router test:
`'router' in result.get('target', '').lower() or
result['target'].startswith('192.168')`. -/
def isRouterEntry (e : PingEntry) : Bool :=
  containsSub "router".toList (lowerChars e.target.toList) ||
  "192.168".toList.isPrefixOf e.target.toList

/-- Lines 188–192 (first extraction loop): classify each ping entry as
router or internet target.  The router slot takes
`result.get('latency_ms')` (default `None`), internet entries append
`result.get('latency_ms', 0)`. -/
def extractLatencies : List PingEntry → Option ℚ × List (Option ℚ) →
    Option ℚ × List (Option ℚ)
  | [], acc => acc
  | e :: rest, (rl, il) =>
    if isRouterEntry e then
      extractLatencies rest (e.latency_ms.join, il)
    else
      extractLatencies rest (rl, il ++ [e.latency_ms.getD (some 0)])

/-- Lines 285–289 (second extraction loop, inside the healthy-network
check): identical to `extractLatencies` except that the router slot also
uses the defaulted `result.get('latency_ms', 0)`. -/
def extractLatencies2 : List PingEntry → Option ℚ × List (Option ℚ) →
    Option ℚ × List (Option ℚ)
  | [], acc => acc
  | e :: rest, (rl, il) =>
    if isRouterEntry e then
      extractLatencies2 rest (e.latency_ms.getD (some 0), il)
    else
      extractLatencies2 rest (rl, il ++ [e.latency_ms.getD (some 0)])

/-- Python `sum(internet_latency) / len(internet_latency) if internet_latency else 0`
(lines 194 and 291): the conditional expression short-circuits on the empty
list, otherwise Python's `sum` may raise `TypeError` on a `None` element. -/
def avgLatency (il : List (Option ℚ)) : Except PyErr ℚ :=
  if il.isEmpty then pure 0
  else do
    let s ← pySum il
    pure (qDivNat s il.length)

/-- Python `v and v < t` (numeric truthiness followed by a comparison). -/
def pyTruthyAndLt (v : Option ℚ) (t : ℚ) : Bool :=
  match v with
  | some g => decide (g ≠ 0) && decide (g < t)
  | none => false

/-- Lines 202–221, the body of the high-router-latency branch. -/
def branch1Body (signal_dbm : Option ℚ) (r : ℚ) (d : Diagnosis) : Diagnosis :=
  let d := { d with
    primary_issue := some "high_local_network_latency"
    root_cause := some ("Router latency is high (" ++ pyStrNum r ++
      "ms), indicating local network congestion or WiFi issues")
    confidence := "high"
    evidence := d.evidence ++
      ["Router latency: " ++ pyStrNum r ++ "ms (threshold: 50ms)"] }
  -- Check WiFi as secondary cause
  if pyTruthyAndLt signal_dbm (-70) then
    { d with
      evidence := d.evidence ++
        ["WiFi signal is weak: " ++ pyStrOptNum signal_dbm ++ "dBm"]
      recommendations := d.recommendations ++
        ["Move closer to WiFi router",
         "Switch to 5GHz band if available",
         "Check for WiFi interference"] }
  else
    { d with
      recommendations := d.recommendations ++
        ["Check router CPU/memory usage",
         "Restart router",
         "Reduce number of connected devices"] }

/-- Lines 224–234, the body of the high-external-latency branch. -/
def branch2Body (r avg : ℚ) (d : Diagnosis) : Diagnosis :=
  { d with
    primary_issue := some "high_external_latency"
    root_cause := some ("Router is responsive (" ++ pyStrNum r ++
      "ms) but external hosts are slow (" ++ fmtF0 avg ++
      "ms avg), indicating ISP or internet routing issues")
    confidence := "high"
    evidence := d.evidence ++
      ["Router: " ++ pyStrNum r ++ "ms (fast)",
       "Internet: " ++ fmtF0 avg ++ "ms (slow)"]
    recommendations := d.recommendations ++
      ["Contact ISP about latency issues",
       "Check if other users on network experiencing same issue",
       "Try wired connection to rule out WiFi"] }

/-- Lines 237–255, the body of the moderate-degradation branch, including
the nested WiFi-congestion check. -/
def branch3Body (signal_dbm : Option ℚ) (results : ToolResultSet) (r : ℚ)
    (d : Diagnosis) : Diagnosis :=
  let d := { d with
    primary_issue := some "moderate_network_degradation"
    root_cause := some ("Moderate latency across local and external hosts, " ++
      "likely WiFi signal quality or interference")
    confidence := "medium"
    evidence := d.evidence ++
      ["Router: " ++ pyStrNum r ++ "ms (moderate)",
       "Signal: " ++ pyStrOptNum signal_dbm ++ "dBm"] }
  -- Check WiFi congestion
  let d :=
    match results.wifi_scan with
    | some ws =>
      if ws.success then
        let networks := ws.networks_found.getD 0
        if 20 < networks then
          { d with
            evidence := d.evidence ++
              [toString networks ++ " WiFi networks detected (congested environment)"]
            recommendations := d.recommendations ++
              ["Switch to less congested WiFi channel"] }
        else d
      else d
    | none => d
  { d with
    recommendations := d.recommendations ++
      ["Improve WiFi signal strength",
       "Switch to 5GHz band",
       "Move closer to router"] }

/-- Rule 1 (lines 181–255): the three-branch decision chain over the
multi-target ping results, evaluated in source order with first match
winning.  The average internet latency is computed (and any `TypeError`
raised) before the branch conditions are tested, as in the source. -/
def rule1 (signal_dbm : Option ℚ) (results : ToolResultSet) (d : Diagnosis) :
    Except PyErr Diagnosis :=
  match results.ping_multiple with
  | none => pure d
  | some pm =>
    if pm.success then do
      let (router_latency, internet_latency) := extractLatencies pm.results (none, [])
      let avg ← avgLatency internet_latency
      match router_latency with
      | none => pure d
      | some r =>
        if r ≠ 0 ∧ 100 < r then
          pure (branch1Body signal_dbm r d)
        else if r ≠ 0 ∧ r < 50 ∧ 200 < avg then
          pure (branch2Body r avg d)
        else if r ≠ 0 ∧ 50 < r ∧ r < 150 then
          pure (branch3Body signal_dbm results r d)
        else pure d
    else pure d

/-- Rule 2 (lines 257–260): the DNS-latency check.  The comparison
`dns_latency > 1000` is unguarded in the source and raises `TypeError` when
the alert carried a `None` DNS latency. -/
def rule2 (dns_latency : Option ℚ) (d : Diagnosis) : Except PyErr Diagnosis := do
  let slow ← pyGtNum dns_latency 1000
  if slow then
    pure { d with
      evidence := d.evidence ++
        ["DNS resolution is slow: " ++ pyStrOptNum dns_latency ++ "ms"]
      recommendations := d.recommendations ++
        ["Change DNS servers to 8.8.8.8 or 1.1.1.1"] }
  else pure d

/-- Rule 3 (lines 262–276): signal-quality evidence and the priority
recommendation inserted at the front of the list. -/
def rule3 (signal_dbm : Option ℚ) (d : Diagnosis) : Diagnosis :=
  match signal_dbm with
  | none => d
  | some g =>
    if g ≠ 0 then
      let quality :=
        if -50 ≤ g then "excellent"
        else if -60 ≤ g then "good"
        else if -70 ≤ g then "fair"
        else "weak"
      let d := { d with
        evidence := d.evidence ++
          ["WiFi signal: " ++ pyStrNum g ++ "dBm (" ++ quality ++ ")"] }
      if g < -70 then
        { d with recommendations :=
            ["PRIORITY: Improve WiFi signal (move closer to router)"] ++
            d.recommendations }
      else d
    else d

/-- Lines 295–298: the healthy-network outcome. -/
def healthyBody (signal_dbm : Option ℚ) (r avg : ℚ) (d : Diagnosis) : Diagnosis :=
  { d with
    primary_issue := some "network_healthy"
    root_cause := some ("Network is performing well - router " ++ fmtF1 r ++
      "ms, internet " ++ fmtF0 avg ++ "ms, signal " ++
      pyStrOptNum signal_dbm ++ "dBm")
    confidence := "high"
    recommendations := ["No action needed - network is healthy"] }

/-- Lines 300–304: the unclear outcome. -/
def unclearBody (d : Diagnosis) : Diagnosis :=
  { d with
    primary_issue := some "network_status_unclear"
    root_cause := some ("Network metrics are borderline or insufficient " ++
      "data to make determination")
    confidence := "low"
    recommendations := d.recommendations ++
      ["Monitor network performance over time"] }

/-- Lines 278–304: when no rule set a root cause, re-extract the latencies
(with the defaulted `get`) and decide between `network_healthy` and
`network_status_unclear`.  The chained condition
`router_latency and router_latency < 50 and avg_internet < 100 and
signal_dbm > -70` short-circuits left to right; the final comparison is
unguarded and raises `TypeError` on a `None` signal. -/
def fallbackCheck (signal_dbm : Option ℚ) (results : ToolResultSet)
    (d : Diagnosis) : Except PyErr Diagnosis :=
  if pyTruthyStr d.root_cause then pure d
  else do
    let (router_latency, internet_latencies) :=
      match results.ping_multiple with
      | some pm =>
        if pm.success then extractLatencies2 pm.results (none, [])
        else (none, [])
      | none => (none, [])
    let avg ← avgLatency internet_latencies
    match router_latency with
    | none => pure (unclearBody d)
    | some r =>
      if r ≠ 0 then
        if r < 50 then
          if avg < 100 then do
            let signalOk ← pyGtNum signal_dbm (-70)
            if signalOk then pure (healthyBody signal_dbm r avg d)
            else pure (unclearBody d)
          else pure (unclearBody d)
        else pure (unclearBody d)
      else pure (unclearBody d)

/-- Lines 165–174: the initial diagnosis record (`timestamp` is the only
field that depends on the clock; it is never written again). -/
def initDiagnosis (now : String) (alert : Alert) (results : ToolResultSet) :
    Diagnosis :=
  { timestamp := now
    alert_status := alert.status
    primary_issue := none
    root_cause := none
    confidence := "medium"
    evidence := []
    recommendations := []
    diagnostic_data := results }

/-- Embedding of `WorkingDiagnosticAgent.analyze_with_rules`
(`agents/diagnostic_agent_working.py`, lines 157–317).  `now` is the
`datetime.now().isoformat()` clock reading used for the `timestamp` field;
everything else is a function of the alert and the tool results.  The
optional AI-scoring step (lines 306–315) is disabled, as when the agent is
built without an LLM. -/
def analyze_with_rules (now : String) (alert : Alert) (results : ToolResultSet) :
    Except PyErr Diagnosis := do
  let metrics := alert.metrics
  let d₀ := initDiagnosis now alert results
  -- Extract key metrics (lines 177–179; `ping_latency` is only printed)
  let signal_dbm := pyGet metrics.signal_dbm (some 0)
  let dns_latency := pyGet metrics.dns_latency_ms (some 0)
  let d₁ ← rule1 signal_dbm results d₀
  let d₂ ← rule2 dns_latency d₁
  let d₃ := rule3 signal_dbm d₂
  fallbackCheck signal_dbm results d₃

end WorkingDiagnosticAgent

/-! ## Fallback Scorer (`WorkingDiagnosticAgent._fallback_health_score`,
`agents/diagnostic_agent_working.py`, lines 435–470) -/

namespace WorkingDiagnosticAgent

/-- Embedding of `_fallback_health_score`: a deterministic 0–100 score.  The score is a
Python `int` (modelled as `ℤ`); the four inputs are floats (`ℚ`). -/
def fallback_health_score
    (router_latency internet_latency signal_dbm packet_loss : ℚ) :
    ℤ × String :=
  let score : ℤ := 100
  let issues : List String := []
  -- Router latency penalty
  let (score, issues) :=
    if 100 < router_latency then (score - 30, issues ++ ["high router latency"])
    else if 50 < router_latency then (score - 15, issues ++ ["moderate router latency"])
    else (score, issues)
  -- Internet latency penalty
  let (score, issues) :=
    if 200 < internet_latency then (score - 20, issues ++ ["high internet latency"])
    else if 100 < internet_latency then (score - 10, issues)
    else (score, issues)
  -- Signal strength penalty
  let (score, issues) :=
    if signal_dbm < -80 then (score - 25, issues ++ ["weak WiFi signal"])
    else if signal_dbm < -70 then (score - 10, issues)
    else (score, issues)
  -- Packet loss penalty
  let (score, issues) :=
    if 5 < packet_loss then (score - 20, issues ++ ["packet loss"])
    else (score, issues)
  let score := max 0 score
  let explanation :=
    if issues.isEmpty then "Network performing well"
    else String.intercalate ", " issues
  (score, explanation)

end WorkingDiagnosticAgent

/-! ## Tool-output parsers

The parsers receive the outcome of the external `subprocess.run` call as
input; all string processing is done on character lists with
kernel-computable helpers mirroring the Python string methods used. -/

/-- The outcome of a `subprocess.run` call at a modelled call site. -/
inductive ProcOutcome where
  | completed (returncode : ℤ) (stdout : String) (stderr : String)
  | timeoutExpired
  | exn (msg : String)
deriving DecidableEq, Repr

/-- Python `s.split('\n')`, keeping empty segments. -/
def splitLinesAux : List Char → List Char → List (List Char)
  | [], cur => [cur.reverse]
  | c :: rest, cur =>
    if c = '\n' then cur.reverse :: splitLinesAux rest []
    else splitLinesAux rest (c :: cur)

/-- Python `s.split('\n')` on a character list. -/
def splitLines (l : List Char) : List (List Char) := splitLinesAux l []

/-- Python `s.split()` (no separator): split on whitespace runs, dropping
empty tokens. -/
def splitWsAux : List Char → List Char → List (List Char)
  | [], cur => if cur.isEmpty then [] else [cur.reverse]
  | c :: rest, cur =>
    if c.isWhitespace then
      if cur.isEmpty then splitWsAux rest []
      else cur.reverse :: splitWsAux rest []
    else splitWsAux rest (c :: cur)

/-- Python `s.split()` on a character list. -/
def splitWs (l : List Char) : List (List Char) := splitWsAux l []

/-- Python `s.strip()`. -/
def pyStrip (l : List Char) : List Char :=
  ((l.dropWhile Char.isWhitespace).reverse.dropWhile Char.isWhitespace).reverse

/-- Python `s.isdigit()`: non-empty and all digits. -/
def pyIsDigit (l : List Char) : Bool := !l.isEmpty && l.all Char.isDigit

/-- True when the character list does not end in a digit (used to state
well-formedness of a ping loss report: the text before the loss figure must
not contribute extra digits to the regex's greedy capture). -/
def lastNotDigit (l : List Char) : Bool :=
  match l.getLast? with
  | some c => !c.isDigit
  | none => true

/-- Numeric value of a digit string (as parsed by Python `int`). -/
def digitsToNat (l : List Char) : ℕ :=
  l.foldl (fun n c => 10 * n + (c.toNat - 48)) 0

/-- Python `part.replace('ms', '')`: drop every (non-overlapping, leftmost)
occurrence of `"ms"`. -/
def removeMs : List Char → List Char
  | [] => []
  | [c] => [c]
  | 'm' :: 's' :: rest => removeMs rest
  | c :: rest => c :: removeMs rest

/-- Python `float()` restricted to plain decimal literals
(`[+-]?` digits, optionally with one dot; at least one digit): `none`
models the `ValueError`.  The call sites only pass tokens made of digits,
dots and leftovers of `"ms"`-stripping, so the unexercised parts of
Python's float grammar (exponents, infinities, underscores) are out of
scope. -/
def parseDecimal? (l : List Char) : Option ℚ :=
  let (neg, rest) :=
    match l with
    | '-' :: r => (true, r)
    | '+' :: r => (false, r)
    | r => (false, r)
  let intPart := rest.takeWhile Char.isDigit
  let rest₂ := rest.dropWhile Char.isDigit
  let mag : Option (ℤ × ℕ) :=
    match rest₂ with
    | [] => if intPart.isEmpty then none else some ((digitsToNat intPart : ℤ), 1)
    | '.' :: frac =>
      if frac.all Char.isDigit ∧ ¬ (intPart.isEmpty ∧ frac.isEmpty) then
        some (((digitsToNat intPart * 10 ^ frac.length + digitsToNat frac : ℕ) : ℤ),
          10 ^ frac.length)
      else none
    | _ => none
  match mag with
  | none => none
  | some (n, d) => some (mkRat (if neg then -n else n) d)

/-- A hop record produced by the traceroute parser. -/
structure Hop where
  hop : ℕ
  host : String
  latency_ms : Option ℚ
deriving DecidableEq, Repr

/-- The record returned by `run_traceroute`; on the failure paths the
source returns a dict without `hops`/`total_hops`, modelled as `[]`/`0`
with `error` set. -/
structure TracerouteResult where
  success : Bool
  target : String
  hops : List Hop
  total_hops : ℕ
  error : Option String
deriving DecidableEq, Repr

/-- The latency-extraction loop over `parts[2:]` (lines 51–58 of
`agents/diagnostic_agent.py`): first token containing `"ms"` whose
`"ms"`-stripped text parses as a float wins; a `ValueError` is caught and
the scan continues. -/
def findLatency : List (List Char) → Option ℚ
  | [] => none
  | p :: rest =>
    if containsSub "ms".toList p then
      match parseDecimal? (removeMs p) with
      | some q => some (pyRound2 q)
      | none => findLatency rest
    else findLatency rest

/-- Embedding of `run_traceroute` (`agents/diagnostic_agent.py`, lines 27–80; the copy in
`agents/direct_diagnostic_agent.py`, lines 26–82, is identical modulo
returning the dict instead of its JSON encoding).  Lines with fewer than
three whitespace-separated fields, or whose first field is not a digit
string, contribute no hop. -/
def run_traceroute (target : String) (outcome : ProcOutcome) : TracerouteResult :=
  match outcome with
  | .completed _rc stdout _stderr =>
    let lines := (splitLines (pyStrip stdout.toList)).drop 1
    let hops := lines.foldl (fun hops line =>
      let parts := splitWs line
      if 3 ≤ parts.length then
        let hop_num := parts.getD 0 []
        if pyIsDigit hop_num then
          let host := parts.getD 1 []
          hops ++ [{
            hop := digitsToNat hop_num
            host := if host ≠ "*".toList then String.mk host else "timeout"
            latency_ms := findLatency (parts.drop 2) : Hop }]
        else hops
      else hops) []
    { success := true, target := target, hops := hops,
      total_hops := hops.length, error := none }
  | .timeoutExpired =>
    { success := false, target := target, hops := [], total_hops := 0,
      error := some "Traceroute timed out" }
  | .exn msg =>
    { success := false, target := target, hops := [], total_hops := 0,
      error := some msg }

/-- One parsed ARP entry (`{ip, mac_or_none, interface_or_none}`). -/
structure ArpEntry where
  ip : String
  mac : Option String
  interface : Option String
deriving DecidableEq, Repr

/-- The record returned by `check_arp_table` (failure path modelled with
`entries = []`, `error` set). -/
structure ArpResult where
  success : Bool
  entries : List ArpEntry
  total_devices : ℕ
  error : Option String
deriving DecidableEq, Repr

/-- Embedding of `check_arp_table` (`agents/diagnostic_agent.py`, lines 261–293; the copy
in `agents/direct_diagnostic_agent.py`, lines 141–175, is identical modulo
JSON encoding).  A `subprocess.TimeoutExpired` is absorbed by the generic
`except Exception` branch. -/
def check_arp_table (outcome : ProcOutcome) : ArpResult :=
  match outcome with
  | .completed _rc stdout _stderr =>
    let lines := (splitLines (pyStrip stdout.toList)).drop 1
    let entries := lines.foldl (fun entries line =>
      let parts := splitWs line
      if 3 ≤ parts.length then
        entries ++ [{
          ip := String.mk (parts.getD 0 [])
          mac := if parts.getD 2 [] ≠ "(incomplete)".toList
                 then some (String.mk (parts.getD 2 [])) else none
          interface := if 4 < parts.length
                       then some (String.mk ((parts.getLast?).getD []))
                       else none : ArpEntry }]
      else entries) []
    { success := true, entries := entries,
      total_devices := entries.length, error := none }
  | .timeoutExpired =>
    { success := false, entries := [], total_devices := 0,
      error := some "TimeoutExpired" }
  | .exn msg =>
    { success := false, entries := [], total_devices := 0,
      error := some msg }

/-- The record returned by `NetworkTools.ping_test`
(`agents/shared_tools.py`): `packet_loss`/`avg_latency_ms`/`raw_output` are
`none` when the corresponding key is absent (the generic exception path);
`avg_latency_ms = some none` is the key present holding `None`. -/
structure STPingResult where
  timestamp : String
  host : String
  success : Bool
  packet_loss : Option ℚ
  avg_latency_ms : Option (Option ℚ)
  raw_output : Option String
  error : Option String
deriving DecidableEq, Repr

/-- Leftmost match of the regex `(\d+)% packet loss`: a greedy digit run
immediately followed by the literal.  (Backtracking to a shorter run can
never help: the character after a shorter run is still a digit, not `'%'`.) -/
def scanPacketLoss : List Char → Option ℕ
  | [] => none
  | c :: rest =>
    if c.isDigit ∧
        "% packet loss".toList.isPrefixOf ((c :: rest).dropWhile Char.isDigit) then
      some (digitsToNat ((c :: rest).takeWhile Char.isDigit))
    else scanPacketLoss rest

/-- Leftmost match of the regex `avg = ([\d.]+)`: the literal followed by a
non-empty greedy run of digits and dots. -/
def scanAvg : List Char → Option (List Char)
  | [] => none
  | c :: rest =>
    if "avg = ".toList.isPrefixOf (c :: rest) then
      let run := ((c :: rest).drop 6).takeWhile (fun ch => ch.isDigit ∨ ch = '.')
      if run.isEmpty then scanAvg rest else some run
    else scanAvg rest

namespace NetworkTools

/-- Embedding of `NetworkTools.ping_test` (`agents/shared_tools.py`, lines 303–366).
`now` is the `datetime.now().isoformat()` reading.  When the captured
`avg = …` group does not parse as a float, the `ValueError` escapes to the
enclosing generic `except Exception`, which returns the bare error record. -/
def ping_test (now host : String) (outcome : ProcOutcome) : STPingResult :=
  match outcome with
  | .completed rc stdout stderr =>
    let success := decide (rc = 0)
    -- packet_loss = 100; avg_latency = None
    if success then
      let packet_loss : ℚ :=
        match scanPacketLoss stdout.toList with
        | some n => (n : ℤ)
        | none => 100
      match scanAvg stdout.toList with
      | some run =>
        match parseDecimal? run with
        | some q =>
          { timestamp := now, host := host, success := true,
            packet_loss := some packet_loss, avg_latency_ms := some (some q),
            raw_output := some stdout, error := none }
        | none =>
          { timestamp := now, host := host, success := false,
            packet_loss := none, avg_latency_ms := none,
            raw_output := none, error := some "ValueError" }
      | none =>
        { timestamp := now, host := host, success := true,
          packet_loss := some packet_loss, avg_latency_ms := some none,
          raw_output := some stdout, error := none }
    else
      { timestamp := now, host := host, success := false,
        packet_loss := some 100, avg_latency_ms := some none,
        raw_output := some stderr, error := none }
  | .timeoutExpired =>
    { timestamp := now, host := host, success := false,
      packet_loss := some 100, avg_latency_ms := some none,
      raw_output := none, error := some "Timeout" }
  | .exn msg =>
    { timestamp := now, host := host, success := false,
      packet_loss := none, avg_latency_ms := none,
      raw_output := none, error := some msg }

end NetworkTools

/-- The response object of `icmplib.ping` as read by
`monitor_agent.ping_test`. -/
structure IcmpPingResponse where
  is_alive : Bool
  avg_rtt : ℚ
  packet_loss : ℚ
deriving DecidableEq, Repr

namespace NetworkMonitor

/-- Embedding of `monitor_agent.ping_test` (lines 32–57): the probe that produces the
`ping` sub-record of a `Snapshot`.  An exception from `icmplib.ping` yields
the error record (no latency or loss keys). -/
def ping_test (host : String) (resp : Except String IcmpPingResponse) :
    PingSnapshot :=
  match resp with
  | .ok r =>
    { success := r.is_alive
      latency_ms := if r.avg_rtt ≠ 0 then some (pyRound2 r.avg_rtt) else none
      packet_loss := some r.packet_loss
      host := host }
  | .error _ =>
    { success := false, latency_ms := none, packet_loss := none, host := host }

end NetworkMonitor

/-! ## Concrete fixtures used by the claim theorems -/

/-- An alert with all metric fields present and numeric (monitor reported
527 ms ping latency, −64 dBm signal, 44 ms DNS latency). -/
def alertDegraded : Alert :=
  ⟨"degraded", ⟨some (some 527), some (some (-64)), some (some 44)⟩⟩

/-- An alert whose measured metrics are inside the healthy bounds
(40 ms ping, −60 dBm signal, 44 ms DNS). -/
def alertHealthyMetrics : Alert :=
  ⟨"degraded", ⟨some (some 40), some (some (-60)), some (some 44)⟩⟩

/-- An alert whose `metrics` sub-dicts are all absent. -/
def alertBare : Alert := ⟨"unhealthy", ⟨none, none, none⟩⟩

/-- A successful multi-target ping with router latency `r` and one internet
target at 40 ms, plus a successful WiFi scan that found 5 networks. -/
def pingResultsWithRouter (r : Option (Option ℚ)) : ToolResultSet :=
  ⟨some ⟨true, [⟨"router", true, r⟩, ⟨"8.8.8.8", true, some (some 40)⟩]⟩,
   some ⟨true, some 5⟩, []⟩

/-- A successful multi-target ping whose single (non-router) entry carries a
`None` latency, as `ping_multiple_targets` produces when `icmplib` reports
the host dead. -/
def resultsNullLatency : ToolResultSet :=
  ⟨some ⟨true, [⟨"8.8.8.8", false, some none⟩]⟩, some ⟨false, none⟩, []⟩

/-- A `ToolResultSet` in which every diagnostic tool failed. -/
def resultsAllFailed : ToolResultSet :=
  ⟨some ⟨false, []⟩, some ⟨false, none⟩, [("traceroute", "failed")]⟩

/-- A traceroute output (with `-q 1`) whose second hop timed out: the
timeout line ` 2  *` has only two whitespace-separated fields. -/
def tracerouteStdout : String :=
  "traceroute to 8.8.8.8 (8.8.8.8), 15 hops max, 60 byte packets\n" ++
  " 1  192.168.1.1  1.8ms\n 2  *\n 3  10.0.0.1  5.0ms"

/-- An `arp -n` output with one resolved entry and one unresolved entry
(in the standard Linux format, `(incomplete)` replaces the `HWtype` and
`HWaddress` columns, so it is the second whitespace-separated field). -/
def arpStdout : String :=
  "Address HWtype HWaddress Flags Mask Iface\n" ++
  "192.168.1.1 ether dc:a6:32:01:02:03 C wlan0\n" ++
  "192.168.1.77  (incomplete)  wlan0"

/-- The summary of a fully successful `ping -c 4` in the actual Linux
output format (note `min/avg/max/mdev = …`: the literal `avg = ` that the
latency regex searches for does not occur). -/
def realPingStdout : String :=
  "4 packets transmitted, 4 received, 0% packet loss, time 3004ms\n" ++
  "rtt min/avg/max/mdev = 10.1/12.5/15.0/1.2 ms"

/-- The penalty names of the Fallback Scorer that the spec says the
explanation must list, in source order (spec-side definition for comparing
against `fallback_health_score`; the two −10 penalties append no name in
the source). -/
def namedPenalties (router_latency internet_latency signal_dbm packet_loss : ℚ) :
    List String :=
  (if 100 < router_latency then ["high router latency"]
   else if 50 < router_latency then ["moderate router latency"] else []) ++
  (if 200 < internet_latency then ["high internet latency"] else []) ++
  (if signal_dbm < -80 then ["weak WiFi signal"] else []) ++
  (if 5 < packet_loss then ["packet loss"] else [])

/-- The update `{ d with timestamp := t }`: the only effect the clock reading has on a
diagnosis. -/
def setTs (t : String) (d : Diagnosis) : Diagnosis := { d with timestamp := t }

theorem qAdd_eq (a b : ℚ) : qAdd a b = a + b := by
  rw [qAdd, Rat.add_def, Rat.normalize_eq_mkRat]

theorem qDivNat_eq (a : ℚ) (n : ℕ) : qDivNat a n = a / n := by
  rw [qDivNat, Rat.mkRat_eq_div]
  push_cast
  conv_rhs => rw [← Rat.num_div_den a]
  rw [div_div]

/-! ## Helper lemmas about the `Except` monad and the pipeline stages -/

theorem exceptBindOk {α β : Type} (a : α) (f : α → Except PyErr β) :
    ((Except.ok a : Except PyErr α) >>= f) = f a := rfl

theorem exceptBindError {α β : Type} (e : PyErr) (f : α → Except PyErr β) :
    ((Except.error e : Except PyErr α) >>= f) = Except.error e := rfl

theorem exceptMapOk {α β : Type} (f : α → β) (a : α) :
    (Except.ok a : Except PyErr α).map f = Except.ok (f a) := rfl

theorem exceptMapError {α β : Type} (f : α → β) (e : PyErr) :
    (Except.error e : Except PyErr α).map f = Except.error e := rfl

theorem exceptPureBind {α β : Type} (a : α) (f : α → Except PyErr β) :
    ((pure a : Except PyErr α) >>= f) = f a := rfl

theorem avgLatency_ok (il : List (Option ℚ)) (s : ℚ)
    (h : pySum il = Except.ok s) :
    WorkingDiagnosticAgent.avgLatency il =
      Except.ok (if il.isEmpty then 0 else qDivNat s il.length) := by
  unfold WorkingDiagnosticAgent.avgLatency
  by_cases he : il.isEmpty
  · rw [if_pos he, if_pos he]; rfl
  · rw [if_neg he, if_neg he, h, exceptBindOk]; rfl

theorem rule2_ok (v : Option ℚ) (d : Diagnosis) (h : v ≠ none) :
    ∃ e, WorkingDiagnosticAgent.rule2 v d = Except.ok e ∧
      e.timestamp = d.timestamp ∧
      e.primary_issue = d.primary_issue ∧
      e.root_cause = d.root_cause ∧
      e.confidence = d.confidence := by
  rcases v with _ | q
  · exact absurd rfl h
  · unfold WorkingDiagnosticAgent.rule2 pyGtNum
    rw [exceptPureBind]
    rcases Bool.eq_false_or_eq_true (decide ((1000 : ℚ) < q)) with hq | hq <;> rw [hq]
    · exact ⟨_, rfl, rfl, rfl, rfl, rfl⟩
    · exact ⟨d, rfl, rfl, rfl, rfl, rfl⟩

theorem rule3_fields (v : Option ℚ) (d : Diagnosis) :
    (WorkingDiagnosticAgent.rule3 v d).timestamp = d.timestamp ∧
    (WorkingDiagnosticAgent.rule3 v d).primary_issue = d.primary_issue ∧
    (WorkingDiagnosticAgent.rule3 v d).root_cause = d.root_cause ∧
    (WorkingDiagnosticAgent.rule3 v d).confidence = d.confidence := by
  rcases v with _ | g
  · exact ⟨rfl, rfl, rfl, rfl⟩
  · simp only [WorkingDiagnosticAgent.rule3]
    split_ifs <;> exact ⟨rfl, rfl, rfl, rfl⟩

theorem fallbackCheck_of_truthy (v : Option ℚ) (res : ToolResultSet)
    (d : Diagnosis) (h : pyTruthyStr d.root_cause = true) :
    WorkingDiagnosticAgent.fallbackCheck v res d = Except.ok d := by
  unfold WorkingDiagnosticAgent.fallbackCheck
  rw [if_pos h]; rfl

theorem rule1_branch3 (v : Option ℚ) (results : ToolResultSet)
    (pm : PingMultipleResult) (r : ℚ) (il : List (Option ℚ)) (s : ℚ)
    (d : Diagnosis)
    (hpm : results.ping_multiple = some pm) (hs : pm.success = true)
    (hext : WorkingDiagnosticAgent.extractLatencies pm.results (none, []) =
      (some r, il))
    (hsum : pySum il = Except.ok s)
    (h50 : 50 < r) (h150 : r < 150) (h100 : ¬ 100 < r) :
    WorkingDiagnosticAgent.rule1 v results d =
      Except.ok (WorkingDiagnosticAgent.branch3Body v results r d) := by
  have hr0 : r ≠ 0 := (lt_trans (by norm_num) h50).ne'
  unfold WorkingDiagnosticAgent.rule1
  rw [hpm]
  simp only [hs, if_true]
  rw [hext]
  simp only [avgLatency_ok il s hsum, exceptBindOk]
  rw [if_neg (fun hc => h100 hc.2), if_neg (fun hc => absurd h50 (not_lt.mpr (le_of_lt hc.2.1))),
    if_pos ⟨hr0, h50, h150⟩]
  rfl


theorem branch3Body_fields (v : Option ℚ) (res : ToolResultSet) (r : ℚ)
    (d : Diagnosis) :
    (WorkingDiagnosticAgent.branch3Body v res r d).primary_issue =
      some "moderate_network_degradation" ∧
    (WorkingDiagnosticAgent.branch3Body v res r d).root_cause =
      some ("Moderate latency across local and external hosts, " ++
        "likely WiFi signal quality or interference") ∧
    (WorkingDiagnosticAgent.branch3Body v res r d).confidence = "medium" ∧
    (WorkingDiagnosticAgent.branch3Body v res r d).timestamp = d.timestamp := by
  unfold WorkingDiagnosticAgent.branch3Body
  rcases hws : res.wifi_scan with _ | ws <;> simp only [hws]
  · simp
  · split_ifs <;> simp

theorem rule1_skip (v : Option ℚ) (results : ToolResultSet)
    (pm : PingMultipleResult) (r : ℚ) (il : List (Option ℚ)) (s : ℚ)
    (d : Diagnosis)
    (hpm : results.ping_multiple = some pm) (hs : pm.success = true)
    (hext : WorkingDiagnosticAgent.extractLatencies pm.results (none, []) =
      (some r, il))
    (hsum : pySum il = Except.ok s)
    (hb1 : ¬ (r ≠ 0 ∧ 100 < r))
    (hb2 : ¬ (r ≠ 0 ∧ r < 50 ∧
      200 < (if il.isEmpty then (0 : ℚ) else qDivNat s il.length)))
    (hb3 : ¬ (r ≠ 0 ∧ 50 < r ∧ r < 150)) :
    WorkingDiagnosticAgent.rule1 v results d = Except.ok d := by
  unfold WorkingDiagnosticAgent.rule1
  rw [hpm]
  simp only [hs, if_true]
  rw [hext]
  simp only [avgLatency_ok il s hsum, exceptBindOk]
  rw [if_neg hb1, if_neg hb2, if_neg hb3]
  rfl

theorem fallbackCheck_healthy (v : Option ℚ) (results : ToolResultSet)
    (pm : PingMultipleResult) (r : ℚ) (il : List (Option ℚ)) (s g : ℚ)
    (d : Diagnosis)
    (hpm : results.ping_multiple = some pm) (hs : pm.success = true)
    (hext : WorkingDiagnosticAgent.extractLatencies2 pm.results (none, []) =
      (some r, il))
    (hsum : pySum il = Except.ok s)
    (hrc : pyTruthyStr d.root_cause = false)
    (hr0 : r ≠ 0) (hr50 : r < 50)
    (havg : (if il.isEmpty then (0 : ℚ) else qDivNat s il.length) < 100)
    (hv : v = some g) (hg : -70 < g) :
    WorkingDiagnosticAgent.fallbackCheck v results d =
      Except.ok (WorkingDiagnosticAgent.healthyBody v r
        (if il.isEmpty then (0 : ℚ) else qDivNat s il.length) d) := by
  unfold WorkingDiagnosticAgent.fallbackCheck
  rw [if_neg (by rw [hrc]; exact Bool.false_ne_true)]
  rw [hpm]
  simp only [hs, if_true]
  rw [hext]
  simp only [avgLatency_ok il s hsum, exceptBindOk]
  rw [if_pos hr0, if_pos hr50, if_pos havg, hv]
  simp only [pyGtNum, exceptPureBind]
  rw [decide_eq_true hg]
  rfl


/-! ### Helper lemmas: the clock reading only flows into `timestamp` -/

theorem stripTs_setTs (t : String) (d : Diagnosis) :
    (setTs t d).stripTs = d.stripTs := rfl

theorem branch1Body_setTs (v : Option ℚ) (r : ℚ) (t : String) (d : Diagnosis) :
    WorkingDiagnosticAgent.branch1Body v r (setTs t d) =
      setTs t (WorkingDiagnosticAgent.branch1Body v r d) := by
  unfold WorkingDiagnosticAgent.branch1Body setTs
  split <;> rfl

theorem branch2Body_setTs (r avg : ℚ) (t : String) (d : Diagnosis) :
    WorkingDiagnosticAgent.branch2Body r avg (setTs t d) =
      setTs t (WorkingDiagnosticAgent.branch2Body r avg d) := rfl

theorem branch3Body_setTs (v : Option ℚ) (res : ToolResultSet) (r : ℚ)
    (t : String) (d : Diagnosis) :
    WorkingDiagnosticAgent.branch3Body v res r (setTs t d) =
      setTs t (WorkingDiagnosticAgent.branch3Body v res r d) := by
  unfold WorkingDiagnosticAgent.branch3Body setTs
  rcases hws : res.wifi_scan with _ | ws <;> simp only [hws]
  all_goals first
  | rfl
  | (split_ifs <;> rfl)

theorem rule1_setTs (v : Option ℚ) (res : ToolResultSet) (t : String)
    (d : Diagnosis) :
    WorkingDiagnosticAgent.rule1 v res (setTs t d) =
      (WorkingDiagnosticAgent.rule1 v res d).map (setTs t) := by
  unfold WorkingDiagnosticAgent.rule1
  rcases hpm : res.ping_multiple with _ | pm <;> simp only [hpm]
  · rfl
  · rcases hb : pm.success with _ | _
    · rw [if_neg (by decide), if_neg (by decide)]
      rfl
    · rw [if_pos (by decide), if_pos (by decide)]
      rcases hext : WorkingDiagnosticAgent.extractLatencies pm.results (none, [])
        with ⟨rl, il⟩
      simp only [hext]
      cases hav : WorkingDiagnosticAgent.avgLatency il with
      | error e => rfl
      | ok a =>
        simp only [exceptBindOk]
        rcases rl with _ | r
        · rfl
        · dsimp only
          split_ifs <;>
            first
            | rfl
            | (simp only [branch1Body_setTs, branch2Body_setTs, branch3Body_setTs]
               rfl)

theorem rule2_setTs (v : Option ℚ) (t : String) (d : Diagnosis) :
    WorkingDiagnosticAgent.rule2 v (setTs t d) =
      (WorkingDiagnosticAgent.rule2 v d).map (setTs t) := by
  rcases v with _ | q
  · rfl
  · unfold WorkingDiagnosticAgent.rule2 pyGtNum
    rcases Bool.eq_false_or_eq_true (decide ((1000 : ℚ) < q)) with hq | hq <;>
      rw [exceptPureBind, exceptPureBind, hq] <;> rfl

theorem rule3_setTs (v : Option ℚ) (t : String) (d : Diagnosis) :
    WorkingDiagnosticAgent.rule3 v (setTs t d) =
      setTs t (WorkingDiagnosticAgent.rule3 v d) := by
  rcases v with _ | g
  · rfl
  · simp only [WorkingDiagnosticAgent.rule3]
    split_ifs <;> rfl

theorem fallbackCheck_setTs (v : Option ℚ) (res : ToolResultSet) (t : String)
    (d : Diagnosis) :
    WorkingDiagnosticAgent.fallbackCheck v res (setTs t d) =
      (WorkingDiagnosticAgent.fallbackCheck v res d).map (setTs t) := by
  unfold WorkingDiagnosticAgent.fallbackCheck
  rw [show (setTs t d).root_cause = d.root_cause from rfl]
  rcases Bool.eq_false_or_eq_true (pyTruthyStr d.root_cause) with hrc | hrc
  · rw [hrc, if_pos (by decide), if_pos (by decide)]
    rfl
  · rw [hrc, if_neg (by decide), if_neg (by decide)]
    rcases hpm : res.ping_multiple with _ | pm <;> simp only [hpm]
    · rfl
    · rcases hb : pm.success with _ | _
      · rw [if_neg (by decide)]
        rfl
      · rw [if_pos (by decide)]
        rcases hext : WorkingDiagnosticAgent.extractLatencies2 pm.results (none, [])
          with ⟨rl, il⟩
        simp only [hext]
        cases hav : WorkingDiagnosticAgent.avgLatency il with
        | error e => rfl
        | ok a =>
          simp only [exceptBindOk]
          rcases rl with _ | r
          · rfl
          · dsimp only
            split_ifs <;>
              first
              | rfl
              | (rcases v with _ | g
                 · rfl
                 · unfold pyGtNum
                   rcases Bool.eq_false_or_eq_true (decide ((-70 : ℚ) < g))
                     with hg | hg <;>
                     rw [exceptPureBind, exceptPureBind, hg] <;> rfl)
  

theorem analyze_with_rules_setTs (t u : String) (alert : Alert)
    (results : ToolResultSet) :
    WorkingDiagnosticAgent.analyze_with_rules t alert results =
      (WorkingDiagnosticAgent.analyze_with_rules u alert results).map
        (setTs t) := by
  simp only [WorkingDiagnosticAgent.analyze_with_rules]
  rw [show WorkingDiagnosticAgent.initDiagnosis t alert results =
    setTs t (WorkingDiagnosticAgent.initDiagnosis u alert results) from rfl]
  rw [rule1_setTs]
  cases h1 : WorkingDiagnosticAgent.rule1 (pyGet alert.metrics.signal_dbm (some 0))
      results (WorkingDiagnosticAgent.initDiagnosis u alert results) with
  | error e => rfl
  | ok d1 =>
    simp only [exceptMapOk, exceptBindOk]
    rw [rule2_setTs]
    cases h2 : WorkingDiagnosticAgent.rule2
        (pyGet alert.metrics.dns_latency_ms (some 0)) d1 with
    | error e => rfl
    | ok d2 =>
      simp only [exceptMapOk, exceptBindOk]
      rw [rule3_setTs, fallbackCheck_setTs]

/-! ## Claim theorems -/

/-- Claim C1, counterexample: the claim includes router latency exactly 50 ms
in the moderate-degradation branch, but the source condition is the strict
`50 < router_latency < 150`: at exactly 50 ms no branch matches and the
diagnosis falls through to `network_status_unclear` with confidence `low`,
not `moderate_network_degradation` with confidence `medium`. -/
theorem moderate_branch_rejects_exactly_50 :
    (WorkingDiagnosticAgent.analyze_with_rules "2024-01-01T00:00:00"
        alertDegraded (pingResultsWithRouter (some (some 50)))).map
        Diagnosis.primary_issue = Except.ok (some "network_status_unclear") ∧
    (WorkingDiagnosticAgent.analyze_with_rules "2024-01-01T00:00:00"
        alertDegraded (pingResultsWithRouter (some (some 50)))).map
        Diagnosis.confidence = Except.ok "low" := by
  decide

/-- Claim C2: on a successful `ping_multiple` result containing a non-router
entry whose `latency_ms` is `None`, `analyze_with_rules` raises `TypeError`
from `sum(internet_latency)` instead of absorbing the failure; when every
diagnostic tool failed it does return the unclear diagnosis with confidence
`low`, as the spec requires. -/
theorem analyze_with_rules_raises_on_null_latency :
    WorkingDiagnosticAgent.analyze_with_rules "2024-01-01T00:00:00"
        alertDegraded resultsNullLatency = Except.error PyErr.typeError ∧
    (WorkingDiagnosticAgent.analyze_with_rules "2024-01-01T00:00:00"
        alertBare resultsAllFailed).map Diagnosis.primary_issue =
      Except.ok (some "network_status_unclear") ∧
    (WorkingDiagnosticAgent.analyze_with_rules "2024-01-01T00:00:00"
        alertBare resultsAllFailed).map Diagnosis.confidence =
      Except.ok "low" := by
  decide

/-- Claim C3, counterexample: two invocations of `analyze_with_rules` on the
identical alert and tool results are not byte-identical: the `timestamp`
field records the `datetime.now()` reading of each invocation. -/
theorem analyze_with_rules_reads_clock :
    WorkingDiagnosticAgent.analyze_with_rules "2024-01-01T00:00:00"
        alertBare resultsAllFailed ≠
    WorkingDiagnosticAgent.analyze_with_rules "2024-01-01T00:00:01"
        alertBare resultsAllFailed := by
  decide

/-- Claim C6: the timed-out second hop of `tracerouteStdout` (the line
` 2  *`, which has only two whitespace-separated fields) is dropped by the
`len(parts) >= 3` guard: the parsed hop numbers are `[1, 3]` — not
contiguous — and no hop with `host = "timeout"` is ever produced, contrary
to the parser's own `'*' → "timeout"` mapping on line 47. -/
theorem run_traceroute_drops_timeout_hop :
    (run_traceroute "8.8.8.8" (ProcOutcome.completed 0 tracerouteStdout "")).success
      = true ∧
    (run_traceroute "8.8.8.8" (ProcOutcome.completed 0 tracerouteStdout "")).hops.map
      Hop.hop = [1, 3] ∧
    (run_traceroute "8.8.8.8" (ProcOutcome.completed 0 tracerouteStdout "")).hops.map
      Hop.host = ["192.168.1.1", "10.0.0.1"] := by
  decide

/-- Claim C7, counterexample: a measured router latency of exactly 0 ms is
within the claim's healthy bounds (`< 50 ms`), but Python's numeric
truthiness (`if router_latency and …`) makes the healthy check fail, so the
diagnosis is `network_status_unclear`, not `network_healthy`. -/
theorem healthy_branch_rejects_zero_router :
    (WorkingDiagnosticAgent.analyze_with_rules "2024-01-01T00:00:00"
        alertHealthyMetrics (pingResultsWithRouter (some (some 0)))).map
        Diagnosis.primary_issue = Except.ok (some "network_status_unclear") ∧
    (WorkingDiagnosticAgent.analyze_with_rules "2024-01-01T00:00:00"
        alertHealthyMetrics (pingResultsWithRouter (some (some 0)))).map
        Diagnosis.confidence = Except.ok "low" := by
  decide

/-- Claim C9, counterexample: with internet latency 150 ms the −10 penalty
fires (score 90 < 100) yet no penalty name is recorded, so the explanation
still reads "Network performing well": the explanation does not name every
penalty that reduced the score. -/
theorem fallback_explanation_misses_silent_penalty :
    (WorkingDiagnosticAgent.fallback_health_score 0 150 0 0).1 = 90 ∧
    (WorkingDiagnosticAgent.fallback_health_score 0 150 0 0).2 =
      "Network performing well" := by
  decide

/-- Claim C10: on the standard `arp -n` output format, `(incomplete)` is the
*second* whitespace-separated field of an unresolved entry, but the parser
tests the *third* (`parts[2]`): the unresolved entry for `192.168.1.77` is
kept, yet with `mac = "wlan0"` (the interface token) rather than
`mac = None`. -/
theorem check_arp_table_mislabels_incomplete :
    (check_arp_table (ProcOutcome.completed 0 arpStdout "")).entries =
      [⟨"192.168.1.1", some "dc:a6:32:01:02:03", some "wlan0"⟩,
       ⟨"192.168.1.77", some "wlan0", none⟩] := by
  decide

/-- Claim C5, counterexample: when the ping subprocess exits non-zero,
`NetworkTools.ping_test` returns `success = false` together with the
numeric sentinel `packet_loss = 100` — a present numeric measurement field
on a failed probe, contradicting the claimed invariant that `success=false`
implies all numeric fields are absent or null. -/
theorem ping_test_failure_reports_sentinel_loss :
    (NetworkTools.ping_test "2024-01-01T00:00:00" "8.8.8.8"
        (ProcOutcome.completed 1 "" "ping: network unreachable")).success = false ∧
    (NetworkTools.ping_test "2024-01-01T00:00:00" "8.8.8.8"
        (ProcOutcome.completed 1 "" "ping: network unreachable")).packet_loss =
      some 100 := by
  decide

/-- Claim C8: the Fallback Scorer starts at 100, subtracts exactly the fixed
penalties (router >100 → 30 else >50 → 15; internet >200 → 20 else
>100 → 10; signal <−80 → 25 else <−70 → 10; packet loss >5 → 20), and the
result equals the [0,100]-clamp of that difference (the upper clamp is
vacuous since penalties only subtract); in particular
`score(120, 250, −85, 10) = 5`. -/
theorem fallback_score_is_clamped_penalties (r i s p : ℚ) :
    (WorkingDiagnosticAgent.fallback_health_score r i s p).1 =
      max 0 (min 100 (100 -
        ((if 100 < r then (30 : ℤ) else if 50 < r then 15 else 0) +
         (if 200 < i then 20 else if 100 < i then 10 else 0) +
         (if s < -80 then 25 else if s < -70 then 10 else 0) +
         (if 5 < p then 20 else 0)))) ∧
    0 ≤ (WorkingDiagnosticAgent.fallback_health_score r i s p).1 ∧
    (WorkingDiagnosticAgent.fallback_health_score r i s p).1 ≤ 100 ∧
    (WorkingDiagnosticAgent.fallback_health_score 120 250 (-85) 10).1 = 5 := by
  have h : (WorkingDiagnosticAgent.fallback_health_score r i s p).1 =
      max 0 (min 100 (100 -
        ((if 100 < r then (30 : ℤ) else if 50 < r then 15 else 0) +
         (if 200 < i then 20 else if 100 < i then 10 else 0) +
         (if s < -80 then 25 else if s < -70 then 10 else 0) +
         (if 5 < p then 20 else 0)))) := by
    simp only [WorkingDiagnosticAgent.fallback_health_score]
    split_ifs <;> decide
  refine ⟨h, ?_, ?_, by decide⟩
  · rw [h]; exact le_max_left 0 _
  · rw [h]
    exact max_le (by decide) (min_le_left 100 _)

set_option maxHeartbeats 1000000 in
/-- Claim C9, amended: the explanation lists exactly the *named* penalties
that triggered (the two −10 penalties — internet latency in (100, 200] and
signal in [−80, −70) — subtract silently), joined by `", "`, and reads
"Network performing well" exactly when no named penalty triggered. -/
theorem fallback_explanation_lists_named_penalties (r i s p : ℚ) :
    (WorkingDiagnosticAgent.fallback_health_score r i s p).2 =
      (if namedPenalties r i s p = [] then "Network performing well"
       else String.intercalate ", " (namedPenalties r i s p)) := by
  simp only [WorkingDiagnosticAgent.fallback_health_score, namedPenalties]
  split_ifs <;> simp_all

/-- Every element of the `issues` list built by
`NetworkMonitor.collectIssuesWarnings` has severity `"critical"`. -/
theorem collectIssues_all_critical (iface : String) (m : Snapshot) :
    ∀ x ∈ (NetworkMonitor.collectIssuesWarnings iface m).1,
      x.severity = "critical" := by
  simp only [NetworkMonitor.collectIssuesWarnings]
  split_ifs <;> simp_all

/-- Claim C4: the Health Classifier returns `unhealthy` exactly when at least
one Issue was generated (all generated Issues are critical), `degraded`
exactly when there is no Issue but at least one Warning, and `healthy`
exactly when there are neither. -/
theorem analyze_metrics_status_ordering (now iface : String) (m : Snapshot) :
    ((NetworkMonitor.analyze_metrics now iface m).status = "unhealthy" ↔
      (NetworkMonitor.analyze_metrics now iface m).issues ≠ []) ∧
    ((NetworkMonitor.analyze_metrics now iface m).status = "degraded" ↔
      ((NetworkMonitor.analyze_metrics now iface m).issues = [] ∧
       (NetworkMonitor.analyze_metrics now iface m).warnings ≠ [])) ∧
    ((NetworkMonitor.analyze_metrics now iface m).status = "healthy" ↔
      ((NetworkMonitor.analyze_metrics now iface m).issues = [] ∧
       (NetworkMonitor.analyze_metrics now iface m).warnings = [])) ∧
    (NetworkMonitor.analyze_metrics now iface m).issues.all
      (fun x => x.severity == "critical") = true := by
  have hcrit := collectIssues_all_critical iface m
  rcases hiw : NetworkMonitor.collectIssuesWarnings iface m with ⟨i, w⟩
  rw [hiw] at hcrit
  simp only [NetworkMonitor.analyze_metrics, hiw, NetworkMonitor.healthStatus]
  rcases i with _ | ⟨x, i⟩ <;> rcases w with _ | ⟨y, w⟩ <;>
    simp_all [List.all_eq_true, beq_iff_eq]


/-- Claim C1, amended: the decision-tree branches are evaluated in the fixed
order (router > 100; router < 50 and avg internet > 200; 50 < router < 150)
with the first match winning, but the moderate branch is the *strict*
interval `50 < router_latency < 150` — router latency exactly 50 ms matches
no branch and falls through to the healthy/unclear check.  For every alert
and tool-result set in which the multi-target ping succeeded, the extracted
router latency `r` satisfies `50 < r < 150`, the earlier high-router branch
does not match (`r ≤ 100`), the internet-latency sum does not raise, and
the alert's DNS latency is not `None`, the diagnosis has
`primary_issue = moderate_network_degradation` and `confidence = medium`. -/
theorem moderate_branch_first_match (now : String) (alert : Alert)
    (results : ToolResultSet) (pm : PingMultipleResult) (r : ℚ)
    (il : List (Option ℚ)) (s : ℚ)
    (hpm : results.ping_multiple = some pm) (hs : pm.success = true)
    (hext : WorkingDiagnosticAgent.extractLatencies pm.results (none, []) =
      (some r, il))
    (hsum : pySum il = Except.ok s)
    (h50 : 50 < r) (h150 : r < 150) (h100 : ¬ 100 < r)
    (hdns : pyGet alert.metrics.dns_latency_ms (some 0) ≠ none) :
    (WorkingDiagnosticAgent.analyze_with_rules now alert results).map
      Diagnosis.primary_issue =
      Except.ok (some "moderate_network_degradation") ∧
    (WorkingDiagnosticAgent.analyze_with_rules now alert results).map
      Diagnosis.confidence = Except.ok "medium" := by
  have h1 := rule1_branch3 (pyGet alert.metrics.signal_dbm (some 0)) results
    pm r il s (WorkingDiagnosticAgent.initDiagnosis now alert results)
    hpm hs hext hsum h50 h150 h100
  obtain ⟨e, he, het, hep, her, hec⟩ := rule2_ok
    (pyGet alert.metrics.dns_latency_ms (some 0))
    (WorkingDiagnosticAgent.branch3Body (pyGet alert.metrics.signal_dbm (some 0))
      results r (WorkingDiagnosticAgent.initDiagnosis now alert results)) hdns
  have h3 := rule3_fields (pyGet alert.metrics.signal_dbm (some 0)) e
  have hbf := branch3Body_fields (pyGet alert.metrics.signal_dbm (some 0))
    results r (WorkingDiagnosticAgent.initDiagnosis now alert results)
  have hrc : pyTruthyStr (WorkingDiagnosticAgent.rule3
      (pyGet alert.metrics.signal_dbm (some 0)) e).root_cause = true := by
    rw [h3.2.2.1, her, hbf.2.1]
    decide
  simp only [WorkingDiagnosticAgent.analyze_with_rules]
  rw [h1, exceptBindOk, he, exceptBindOk,
    fallbackCheck_of_truthy _ _ _ hrc]
  constructor
  · rw [exceptMapOk, h3.2.1, hep, hbf.1]
  · rw [exceptMapOk, h3.2.2.2, hec, hbf.2.2.1]

/-- Claim C1, witness: router latency 80 ms with one internet target at
40 ms: the hypotheses of `moderate_branch_first_match` hold and the
diagnosis is `moderate_network_degradation` with confidence `medium`. -/
theorem moderate_branch_first_match_witness :
    ((pingResultsWithRouter (some (some 80))).ping_multiple =
      some ⟨true, [⟨"router", true, some (some 80)⟩,
                   ⟨"8.8.8.8", true, some (some 40)⟩]⟩) ∧
    (WorkingDiagnosticAgent.extractLatencies
      [⟨"router", true, some (some 80)⟩, ⟨"8.8.8.8", true, some (some 40)⟩]
      (none, []) = (some 80, [some 40])) ∧
    (pySum [some 40] = Except.ok 40) ∧
    (((WorkingDiagnosticAgent.analyze_with_rules "2024-01-01T00:00:00"
        alertDegraded (pingResultsWithRouter (some (some 80)))).map
        Diagnosis.primary_issue =
        Except.ok (some "moderate_network_degradation")) ∧
      ((WorkingDiagnosticAgent.analyze_with_rules "2024-01-01T00:00:00"
        alertDegraded (pingResultsWithRouter (some (some 80)))).map
        Diagnosis.confidence = Except.ok "medium")) :=
  ⟨by decide, by decide, by decide,
    moderate_branch_first_match "2024-01-01T00:00:00" alertDegraded
      (pingResultsWithRouter (some (some 80)))
      ⟨true, [⟨"router", true, some (some 80)⟩,
              ⟨"8.8.8.8", true, some (some 40)⟩]⟩
      80 [some 40] 40 (by decide) (by decide) (by decide) (by decide)
      (by decide) (by decide) (by decide) (by decide)⟩

/-- Claim C7, amended: if no decision-tree branch matched and the measured
metrics are within the healthy bounds *with a strictly positive (truthy)
router latency* — `0 < router < 50`, average internet < 100, signal
> −70 dBm — the diagnosis is `network_healthy` with confidence `high` and
the recommendations reduce to the single no-action entry.  (Router latency
exactly 0 is excluded: Python's numeric truthiness sends it to the unclear
branch, see the counterexample.) -/
theorem healthy_branch_rule (now : String) (alert : Alert)
    (results : ToolResultSet) (pm : PingMultipleResult) (r : ℚ)
    (il : List (Option ℚ)) (s g : ℚ)
    (hpm : results.ping_multiple = some pm) (hs : pm.success = true)
    (hext1 : WorkingDiagnosticAgent.extractLatencies pm.results (none, []) =
      (some r, il))
    (hext2 : WorkingDiagnosticAgent.extractLatencies2 pm.results (none, []) =
      (some r, il))
    (hsum : pySum il = Except.ok s)
    (hr0 : 0 < r) (hr50 : r < 50)
    (havg : (if il.isEmpty then (0 : ℚ) else qDivNat s il.length) < 100)
    (hsig : pyGet alert.metrics.signal_dbm (some 0) = some g) (hg : -70 < g)
    (hdns : pyGet alert.metrics.dns_latency_ms (some 0) ≠ none) :
    (WorkingDiagnosticAgent.analyze_with_rules now alert results).map
      Diagnosis.primary_issue = Except.ok (some "network_healthy") ∧
    (WorkingDiagnosticAgent.analyze_with_rules now alert results).map
      Diagnosis.confidence = Except.ok "high" ∧
    (WorkingDiagnosticAgent.analyze_with_rules now alert results).map
      Diagnosis.recommendations =
      Except.ok ["No action needed - network is healthy"] := by
  have h1 := rule1_skip (pyGet alert.metrics.signal_dbm (some 0)) results
    pm r il s (WorkingDiagnosticAgent.initDiagnosis now alert results)
    hpm hs hext1 hsum
    (fun hc => absurd hc.2 (not_lt.mpr (le_of_lt (lt_trans hr50 (by norm_num)))))
    (fun hc => absurd hc.2.2 (not_lt.mpr (le_of_lt (lt_trans havg (by norm_num)))))
    (fun hc => absurd hc.2.1 (not_lt.mpr (le_of_lt hr50)))
  obtain ⟨e, he, het, hep, her, hec⟩ := rule2_ok
    (pyGet alert.metrics.dns_latency_ms (some 0))
    (WorkingDiagnosticAgent.initDiagnosis now alert results) hdns
  have h3 := rule3_fields (pyGet alert.metrics.signal_dbm (some 0)) e
  have hrc : pyTruthyStr (WorkingDiagnosticAgent.rule3
      (pyGet alert.metrics.signal_dbm (some 0)) e).root_cause = false := by
    rw [h3.2.2.1, her]
    rfl
  have hfb := fallbackCheck_healthy (pyGet alert.metrics.signal_dbm (some 0))
    results pm r il s g
    (WorkingDiagnosticAgent.rule3 (pyGet alert.metrics.signal_dbm (some 0)) e)
    hpm hs hext2 hsum hrc hr0.ne' hr50 havg hsig hg
  simp only [WorkingDiagnosticAgent.analyze_with_rules]
  rw [h1, exceptBindOk, he, exceptBindOk, hfb]
  exact ⟨rfl, rfl, rfl⟩

/-- Claim C7, witness (spec Scenario C): router 30 ms, internet 40 ms,
signal −60 dBm: the hypotheses of `healthy_branch_rule` hold and the
diagnosis is `network_healthy` / `high` with the single no-action
recommendation. -/
theorem healthy_branch_rule_witness :
    ((0 : ℚ) < 30 ∧ (30 : ℚ) < 50 ∧ (-70 : ℚ) < -60) ∧
    (pySum [some 40] = Except.ok 40) ∧
    (((WorkingDiagnosticAgent.analyze_with_rules "2024-01-01T00:00:00"
        alertHealthyMetrics (pingResultsWithRouter (some (some 30)))).map
        Diagnosis.primary_issue = Except.ok (some "network_healthy")) ∧
      ((WorkingDiagnosticAgent.analyze_with_rules "2024-01-01T00:00:00"
        alertHealthyMetrics (pingResultsWithRouter (some (some 30)))).map
        Diagnosis.confidence = Except.ok "high") ∧
      ((WorkingDiagnosticAgent.analyze_with_rules "2024-01-01T00:00:00"
        alertHealthyMetrics (pingResultsWithRouter (some (some 30)))).map
        Diagnosis.recommendations =
        Except.ok ["No action needed - network is healthy"])) :=
  ⟨by decide, by decide,
    healthy_branch_rule "2024-01-01T00:00:00" alertHealthyMetrics
      (pingResultsWithRouter (some (some 30)))
      ⟨true, [⟨"router", true, some (some 30)⟩,
              ⟨"8.8.8.8", true, some (some 40)⟩]⟩
      30 [some 40] 40 (-60) (by decide) (by decide) (by decide) (by decide)
      (by decide) (by decide) (by decide) (by decide) (by decide) (by decide)
      (by decide)⟩

/-- Claim C3, amended: the Root-Cause Diagnoser is deterministic up to its
clock reading: for a fixed alert and tool-result set, every field of the
Diagnosis except `timestamp` is a pure function of the two inputs — two
invocations differ at most in the `timestamp` each stamped from its own
`datetime.now()` reading. -/
theorem analyze_with_rules_deterministic_mod_timestamp (t u : String)
    (alert : Alert) (results : ToolResultSet) :
    (WorkingDiagnosticAgent.analyze_with_rules t alert results).map
      Diagnosis.stripTs =
    (WorkingDiagnosticAgent.analyze_with_rules u alert results).map
      Diagnosis.stripTs := by
  rw [analyze_with_rules_setTs t u]
  cases WorkingDiagnosticAgent.analyze_with_rules u alert results <;> rfl

/-- Helper: `List.isPrefixOf` on character lists agrees with the prefix
relation. -/
theorem isPrefixOf_true_iff (l₁ l₂ : List Char) :
    l₁.isPrefixOf l₂ = true ↔ l₁ <+: l₂ :=
  List.isPrefixOf_iff_prefix

/-- Helper: dropping while `p` skips a block that wholly satisfies `p`. -/
theorem dropWhile_append_of_all {p : Char → Bool} (xs ys : List Char)
    (h : xs.all p = true) : (xs ++ ys).dropWhile p = ys.dropWhile p := by
  induction xs with
  | nil => rfl
  | cons c xs ih =>
    simp only [List.all_cons, Bool.and_eq_true] at h
    simp [List.dropWhile_cons, h.1, ih h.2]

/-- Helper: taking while `p` collects exactly a leading all-`p` block when the
next character fails `p`. -/
theorem takeWhile_append_of_all {p : Char → Bool} (xs ys : List Char) (y : Char)
    (h : xs.all p = true) (hy : p y = false) :
    (xs ++ y :: ys).takeWhile p = xs := by
  induction xs with
  | nil => simp [List.takeWhile_cons, hy]
  | cons c xs ih =>
    simp only [List.all_cons, Bool.and_eq_true] at h
    simp [List.takeWhile_cons, h.1, ih h.2]

/-- Helper: dropping while `p` stays inside a block that contains a failing
character. -/
theorem dropWhile_append_of_not_all {p : Char → Bool} (xs ys : List Char)
    (h : xs.all p = false) :
    (xs ++ ys).dropWhile p = xs.dropWhile p ++ ys := by
  induction xs with
  | nil => simp at h
  | cons c xs ih =>
    rcases hc : p c with _ | _
    · simp [List.dropWhile_cons, hc]
    · have h' : xs.all p = false := by
        simpa [List.all_cons, hc] using h
      simp [List.dropWhile_cons, hc, ih h']

/-- Helper: when some character of `xs` fails `p`, `xs.dropWhile p` starts
with a member of `xs` failing `p`. -/
theorem dropWhile_head_spec {p : Char → Bool} (xs : List Char)
    (h : xs.all p = false) :
    ∃ hd tl, xs.dropWhile p = hd :: tl ∧ p hd = false ∧ hd ∈ xs := by
  induction xs with
  | nil => simp at h
  | cons c xs ih =>
    rcases hc : p c with _ | _
    · exact ⟨c, xs, by simp [List.dropWhile_cons, hc], hc, by simp⟩
    · have h' : xs.all p = false := by
        simpa [List.all_cons, hc] using h
      obtain ⟨hd, tl, h1, h2, h3⟩ := ih h'
      exact ⟨hd, tl, by simp [List.dropWhile_cons, hc, h1], h2, by simp [h3]⟩

/-- Helper: a non-empty list whose last character is not a digit is not all
digits. -/
theorem not_all_isDigit_of_lastNotDigit (l : List Char) (hne : l ≠ [])
    (h : lastNotDigit l = true) : l.all Char.isDigit = false := by
  have hl := List.getLast?_eq_getLast_of_ne_nil hne
  have hcd : (l.getLast hne).isDigit = false := by
    unfold lastNotDigit at h
    rw [hl] at h
    simpa using h
  have hm : l.getLast hne ∈ l := List.getLast_mem hne
  cases hall : l.all Char.isDigit with
  | false => rfl
  | true =>
    have := List.all_eq_true.mp hall _ hm
    rw [hcd] at this
    exact absurd this Bool.false_ne_true

/-- Helper: `lastNotDigit` ignores a cons onto a non-empty list. -/
theorem lastNotDigit_cons (c : Char) (l : List Char) (h : l ≠ []) :
    lastNotDigit (c :: l) = lastNotDigit l := by
  unfold lastNotDigit
  rcases l with _ | ⟨b, l⟩
  · exact absurd rfl h
  · rw [List.getLast?_cons_cons]

/-- Correctness of the leftmost-match scan for `(\d+)% packet loss` on a
well-formed summary: the text before the loss figure contains no `'%'` and
does not end in a digit, and the figure is a non-empty digit run immediately
followed by the literal; the scan then returns exactly that figure. -/
theorem scanPacketLoss_of_split (pre ds post : List Char)
    (hpct : '%' ∉ pre) (hlast : lastNotDigit pre = true)
    (hne : ds ≠ []) (hdig : ds.all Char.isDigit = true) :
    scanPacketLoss (pre ++ (ds ++ ("% packet loss".toList ++ post))) =
      some (digitsToNat ds) := by
  have hlit : "% packet loss".toList = '%' :: " packet loss".toList := rfl
  have hpctd : ('%' : Char).isDigit = false := by decide
  induction pre with
  | nil =>
    rcases ds with _ | ⟨d, ds'⟩
    · exact absurd rfl hne
    · simp only [List.all_cons, Bool.and_eq_true] at hdig
      simp only [List.nil_append, List.cons_append]
      rw [scanPacketLoss]
      rw [if_pos]
      · congr 1
        have := takeWhile_append_of_all (p := Char.isDigit) (d :: ds')
          (" packet loss".toList ++ post) '%' (by simp [hdig.1, hdig.2]) hpctd
        rw [hlit]
        rw [show d :: (ds' ++ ('%' :: " packet loss".toList ++ post)) =
          (d :: ds') ++ ('%' :: (" packet loss".toList ++ post)) from by simp] at *
        rw [this]
      · constructor
        · exact hdig.1
        · rw [hlit]
          rw [show d :: (ds' ++ ('%' :: " packet loss".toList ++ post)) =
            (d :: ds') ++ ('%' :: (" packet loss".toList ++ post)) from by simp]
          rw [dropWhile_append_of_all (d :: ds') _ (by simp [hdig.1, hdig.2])]
          rw [List.dropWhile_cons]
          rw [hpctd]
          simp only [Bool.false_eq_true, if_false]
          rw [isPrefixOf_true_iff]
          exact List.cons_prefix_cons.mpr ⟨rfl, List.prefix_append _ _⟩
  | cons c pre ih =>
    have hpct' : '%' ∉ pre := fun h => hpct (List.mem_cons_of_mem c h)
    have hcne : c ≠ '%' := by
      intro h
      exact hpct (h ▸ List.mem_cons_self c pre)
    simp only [List.cons_append]
    rw [scanPacketLoss]
    rcases hcd : c.isDigit with _ | _
    · rw [if_neg]
      · apply ih hpct'
        by_cases hpre : pre = []
        · subst hpre; rfl
        · rw [← lastNotDigit_cons c pre hpre]; exact hlast
      · rintro ⟨h1, _⟩
        exact Bool.false_ne_true h1
    · have hprene : pre ≠ [] := by
        intro h0
        subst h0
        unfold lastNotDigit at hlast
        simp only [List.getLast?_singleton] at hlast
        rw [hcd] at hlast
        simp at hlast
      rw [if_neg]
      · apply ih hpct'
        rw [← lastNotDigit_cons c pre hprene]; exact hlast
      · rintro ⟨_, h2⟩
        have hnotall : (c :: pre).all Char.isDigit = false :=
          not_all_isDigit_of_lastNotDigit (c :: pre) (by simp) hlast
        obtain ⟨hd, tl, h1, hpd, hmem⟩ :=
          dropWhile_head_spec (p := Char.isDigit) (c :: pre) hnotall
        rw [show c :: (pre ++ (ds ++ ("% packet loss".toList ++ post))) =
          (c :: pre) ++ (ds ++ ("% packet loss".toList ++ post)) from rfl] at h2
        rw [dropWhile_append_of_not_all _ _ hnotall, h1] at h2
        rw [isPrefixOf_true_iff, hlit] at h2
        simp only [List.cons_append] at h2
        obtain ⟨hhd, _⟩ := List.cons_prefix_cons.mp h2
        rcases List.mem_cons.mp hmem with hmem' | hmem'
        · exact hcne (hmem' ▸ hhd.symm)
        · exact hpct' (hhd ▸ hmem')

/-- Failure-path fields of `NetworkTools.ping_test`: `success = false` implies
the latency field is absent or null, and `packet_loss` is then the numeric
sentinel `100` or absent entirely (the generic exception path). -/
theorem ping_test_failure_fields (now host : String) (oc : ProcOutcome)
    (h : (NetworkTools.ping_test now host oc).success = false) :
    ((NetworkTools.ping_test now host oc).avg_latency_ms = none ∨
     (NetworkTools.ping_test now host oc).avg_latency_ms = some none) ∧
    ((NetworkTools.ping_test now host oc).packet_loss = some 100 ∨
     (NetworkTools.ping_test now host oc).packet_loss = none) := by
  rcases oc with ⟨rc, stdout, stderr⟩ | _ | msg
  · unfold NetworkTools.ping_test at h ⊢
    dsimp only at h ⊢
    simp only [String.toList] at h ⊢
    rcases Bool.eq_false_or_eq_true (decide (rc = 0)) with hrc | hrc <;>
      rw [hrc] at h ⊢
    · rcases hA : scanAvg stdout.data with _ | run
      · rw [hA] at h
        simp at h
      · rw [hA] at h
        dsimp only at h ⊢
        rcases hP : parseDecimal? run with _ | q
        · exact ⟨Or.inl rfl, Or.inr rfl⟩
        · rw [hP] at h
          simp at h
    · exact ⟨Or.inr rfl, Or.inl rfl⟩
  · exact ⟨Or.inr rfl, Or.inl rfl⟩
  · exact ⟨Or.inl rfl, Or.inr rfl⟩

/-- Claim C5, amended: for both ping probes. (1) For `NetworkTools.ping_test`,
`success = false` implies the latency field is absent or null, but
`packet_loss` is then the numeric sentinel `100` (or absent on the generic
exception path) — not absent/null as claimed. (2) The `packet_loss` parsed
from a well-formed ping summary — one whose text before the loss figure has
no `'%'` and does not end in a digit, with a digit-run figure of at most 100
followed by `% packet loss` — lies in `[0,100]`. (3) For
`monitor_agent.ping_test`, under the icmplib contract (a dead host reports
`avg_rtt = 0`, and `packet_loss` is a fraction in `[0,1]`), `success = false`
does imply `latency_ms` is null and any present `packet_loss` lies in
`[0,100]`, but on a parsed (non-exception) response `packet_loss` is always
numerically present — even when `success = false`. (4) The converse
"latency null only if success=false" fails: real Linux ping output writes
`min/avg/max/mdev = …`, which never matches the `avg = ` pattern, so a fully
successful parse still has a null latency. -/
theorem ping_probes_measurement_fields :
    (∀ (now host : String) (oc : ProcOutcome),
      (NetworkTools.ping_test now host oc).success = false →
      ((NetworkTools.ping_test now host oc).avg_latency_ms = none ∨
       (NetworkTools.ping_test now host oc).avg_latency_ms = some none) ∧
      ((NetworkTools.ping_test now host oc).packet_loss = some 100 ∨
       (NetworkTools.ping_test now host oc).packet_loss = none)) ∧
    (∀ (now host stderr : String) (rc : ℤ) (stdout : String)
        (pre ds post : List Char),
      stdout.data = pre ++ (ds ++ ("% packet loss".toList ++ post)) →
      '%' ∉ pre → lastNotDigit pre = true →
      ds ≠ [] → ds.all Char.isDigit = true → digitsToNat ds ≤ 100 →
      ∀ q : ℚ,
        (NetworkTools.ping_test now host
          (ProcOutcome.completed rc stdout stderr)).packet_loss = some q →
        0 ≤ q ∧ q ≤ 100) ∧
    (∀ (host : String) (resp : Except String IcmpPingResponse),
      (∀ r, resp = Except.ok r →
        (r.is_alive = false → r.avg_rtt = 0) ∧
        0 ≤ r.packet_loss ∧ r.packet_loss ≤ 1) →
      ((NetworkMonitor.ping_test host resp).success = false →
        (NetworkMonitor.ping_test host resp).latency_ms = none) ∧
      (∀ q : ℚ, (NetworkMonitor.ping_test host resp).packet_loss = some q →
        0 ≤ q ∧ q ≤ 100) ∧
      (∀ r, resp = Except.ok r →
        (NetworkMonitor.ping_test host resp).packet_loss =
          some r.packet_loss)) ∧
    ((NetworkTools.ping_test "2024-01-01T00:00:00" "8.8.8.8"
        (ProcOutcome.completed 0 realPingStdout "")).success = true ∧
     (NetworkTools.ping_test "2024-01-01T00:00:00" "8.8.8.8"
        (ProcOutcome.completed 0 realPingStdout "")).avg_latency_ms =
       some none ∧
     (NetworkTools.ping_test "2024-01-01T00:00:00" "8.8.8.8"
        (ProcOutcome.completed 0 realPingStdout "")).packet_loss = some 0) := by
  refine ⟨?_, ?_, ?_, ?_⟩
  · exact fun now host oc h => ping_test_failure_fields now host oc h
  · intro now host stderr rc stdout pre ds post hsplit hpct hlast hne hdig hL
    intro q hq
    have hscan : scanPacketLoss stdout.data = some (digitsToNat ds) := by
      rw [hsplit]
      exact scanPacketLoss_of_split pre ds post hpct hlast hne hdig
    unfold NetworkTools.ping_test at hq
    dsimp only at hq
    simp only [String.toList] at hq
    rcases Bool.eq_false_or_eq_true (decide (rc = 0)) with hrc | hrc <;>
      rw [hrc] at hq
    · rw [if_pos rfl] at hq
      rw [hscan] at hq
      dsimp only at hq
      rcases hA : scanAvg stdout.data with _ | run
      · rw [hA] at hq
        dsimp only at hq
        obtain rfl := (Option.some.inj hq)
        constructor
        · positivity
        · exact_mod_cast hL
      · rw [hA] at hq
        dsimp only at hq
        rcases hP : parseDecimal? run with _ | q'
        · rw [hP] at hq
          dsimp only at hq
          exact Option.noConfusion hq
        · rw [hP] at hq
          dsimp only at hq
          obtain rfl := (Option.some.inj hq)
          constructor
          · positivity
          · exact_mod_cast hL
    · rw [if_neg Bool.false_ne_true] at hq
      dsimp only at hq
      obtain rfl := (Option.some.inj hq)
      constructor
      · norm_num
      · norm_num
  · intro host resp contract
    rcases resp with e | r
    · refine ⟨fun _ => rfl, ?_, ?_⟩
      · intro q hq
        exact Option.noConfusion hq
      · intro r hr
        exact Except.noConfusion hr
    · obtain ⟨hdead, hlo, hhi⟩ := contract r rfl
      refine ⟨?_, ?_, ?_⟩
      · intro hs
        have h0 : r.avg_rtt = 0 := hdead hs
        show (if r.avg_rtt ≠ 0 then some (pyRound2 r.avg_rtt) else none) = none
        rw [if_neg (fun h2 => h2 h0)]
      · intro q hq
        have hql : r.packet_loss = q := Option.some.inj hq
        subst hql
        exact ⟨hlo, le_trans hhi (by norm_num)⟩
      · intro r' hr'
        injection hr' with h
        subst h
        rfl
  · exact ⟨by decide, by decide, by decide⟩

/-- Claim C5, witness: a ping that exited with status 1 has `success = false`
with null latency and sentinel loss `100`; the fully successful real Linux
ping summary `realPingStdout` parses to `packet_loss = 0 ∈ [0,100]`; and a
dead-host icmplib response (`is_alive = false`, `avg_rtt = 0`,
`packet_loss = 1`) yields a monitor record with null latency but a present
numeric loss `1 ∈ [0,100]`. -/
theorem ping_probes_measurement_fields_witness :
    (((NetworkTools.ping_test "2024-01-01T00:00:00" "8.8.8.8"
        (ProcOutcome.completed 1 "" "ping: network unreachable")).avg_latency_ms
        = none ∨
      (NetworkTools.ping_test "2024-01-01T00:00:00" "8.8.8.8"
        (ProcOutcome.completed 1 "" "ping: network unreachable")).avg_latency_ms
        = some none) ∧
     ((NetworkTools.ping_test "2024-01-01T00:00:00" "8.8.8.8"
        (ProcOutcome.completed 1 "" "ping: network unreachable")).packet_loss
        = some 100 ∨
      (NetworkTools.ping_test "2024-01-01T00:00:00" "8.8.8.8"
        (ProcOutcome.completed 1 "" "ping: network unreachable")).packet_loss
        = none)) ∧
    (0 ≤ (0 : ℚ) ∧ (0 : ℚ) ≤ 100) ∧
    ((NetworkMonitor.ping_test "8.8.8.8"
        (Except.ok ⟨false, 0, 1⟩)).latency_ms = none) ∧
    ((NetworkMonitor.ping_test "8.8.8.8"
        (Except.ok ⟨false, 0, 1⟩)).packet_loss = some 1) ∧
    (0 ≤ (1 : ℚ) ∧ (1 : ℚ) ≤ 100) := by
  have hmon := ping_probes_measurement_fields.2.2.1 "8.8.8.8"
    (Except.ok ⟨false, 0, 1⟩)
    (fun r hr => by
      injection hr with h
      subst h
      exact ⟨fun _ => rfl, by decide, by decide⟩)
  refine ⟨?_, ?_, ?_, ?_, ?_⟩
  · exact ping_probes_measurement_fields.1 "2024-01-01T00:00:00" "8.8.8.8"
      (ProcOutcome.completed 1 "" "ping: network unreachable") (by decide)
  · exact ping_probes_measurement_fields.2.1 "2024-01-01T00:00:00" "8.8.8.8"
      "" 0 realPingStdout "4 packets transmitted, 4 received, ".data ['0']
      ", time 3004ms\nrtt min/avg/max/mdev = 10.1/12.5/15.0/1.2 ms".data
      (by decide) (by decide) (by decide) (by decide) (by decide) (by decide)
      0 (by decide)
  · exact hmon.1 (by decide)
  · exact hmon.2.2 ⟨false, 0, 1⟩ rfl
  · exact hmon.2.1 1 (by decide)

end NetTriage
